import Mathlib

/-!
Verification of `compodoc-issue-check.service.ts` and its variant file.

The repository defines an Angular service `ExampleService` that receives an
optional configuration object (`injectedConfig`, a JS object or null) at
construction and exposes three accessors over its `exampleOption` field:
a getter, a setter, and a delegating method `getExampleOption`.

Embedding choices:
- A JS configuration object is a finite association list of string keys to
  string values (`ConfigObject`).  Property lookup on a present object
  yields `Option String` (`none` models JS `undefined` for a missing key).
- Objects live on a heap (`Heap : Ref → ConfigObject`); the service stores
  an `Option Ref` (`none` models a null/undefined injected configuration,
  as permitted by the `@Optional()` decorator).
- Accessing a property of a null/undefined configuration raises a JS
  `TypeError`; accessors therefore return `Except JsError _`.
- The constructor body only performs `console.log(this.injectedConfig)`,
  which has no effect on the service state, so construction is modelled as
  storing the injected reference.
-/

namespace CompodocIssueCheck

/-- A JS-style configuration object: an association list of string fields.
JS objects have no duplicate keys; lookup and assignment act on the first
matching key, which coincides with JS semantics on duplicate-free lists. -/
structure ConfigObject where
  fields : List (String × String)
deriving DecidableEq, Repr

/-- Property lookup on an association list: first matching key, else
`none` (JS `undefined`). -/
def getFieldList : List (String × String) → String → Option String
  | [], _ => none
  | p :: ps, k => if p.1 == k then some p.2 else getFieldList ps k

/-- Property assignment on an association list: overwrite the first
matching key in place, or append the key if absent (JS `obj[k] = v`). -/
def putFieldList : List (String × String) → String → String → List (String × String)
  | [], k, v => [(k, v)]
  | p :: ps, k, v => if p.1 == k then (k, v) :: ps else p :: putFieldList ps k v

/-- Read property `k` of a configuration object (JS `obj.k`). -/
def ConfigObject.getField (c : ConfigObject) (k : String) : Option String :=
  getFieldList c.fields k

/-- Write property `k` of a configuration object (JS `obj.k = v`). -/
def ConfigObject.setField (c : ConfigObject) (k v : String) : ConfigObject :=
  ⟨putFieldList c.fields k v⟩

/-- Object references: JS object identity. -/
abbrev Ref := Nat

/-- The heap of live configuration objects. -/
abbrev Heap := Ref → ConfigObject

/-- Replace the object stored at reference `r` (in-place mutation of the
object every holder of `r` sees). -/
def Heap.update (h : Heap) (r : Ref) (c : ConfigObject) : Heap :=
  fun r2 => if r2 = r then c else h r2

/-- The JS errors the service can raise: a `TypeError` from reading or
writing a property of a null/undefined value.  The error is never caught
inside the service, so it is surfaced via `Except`. -/
inductive JsError where
  | typeErrorRead (prop : String)
  | typeErrorWrite (prop : String)
deriving DecidableEq, Repr

/-- Whether an error is the null/undefined-access `TypeError` on property
`p` (either the read or the write flavour). -/
def JsError.isNullAccessOn (p : String) : JsError → Bool
  | .typeErrorRead q => q == p
  | .typeErrorWrite q => q == p

/-- `ExampleService` from `src/src/compodoc-issue-check.service.ts`: its
single private readonly field `injectedConfig` holds the injected
configuration reference, or `none` when nothing was injected. -/
structure ExampleService where
  injectedConfig : Option Ref
deriving DecidableEq, Repr

/-- The constructor: stores the injected configuration.  The body,
`console.log(this.injectedConfig)`, writes to the console only and does
not affect the stored state. -/
def ExampleService.construct (injectedConfig : Option Ref) : ExampleService :=
  ⟨injectedConfig⟩

/-- The `exampleOption` getter: `return this.injectedConfig.exampleOption`.
Dereferencing an absent configuration raises a read `TypeError`; on a
present object the result is the field value, or `none` (JS `undefined`)
when the key is missing. -/
def ExampleService.exampleOption_get (s : ExampleService) (h : Heap) :
    Except JsError (Option String) :=
  match s.injectedConfig with
  | none => .error (.typeErrorRead "exampleOption")
  | some r => .ok ((h r).getField "exampleOption")

/-- The `exampleOption` setter:
`this.injectedConfig.exampleOption = value`.  Writing through an absent
configuration raises a write `TypeError`; otherwise the object at the held
reference is mutated in place on the heap. -/
def ExampleService.exampleOption_set (s : ExampleService) (h : Heap)
    (value : String) : Except JsError Heap :=
  match s.injectedConfig with
  | none => .error (.typeErrorWrite "exampleOption")
  | some r => .ok (Heap.update h r ((h r).setField "exampleOption" value))

/-- `getExampleOption()`: `return this.exampleOption` — a pure delegate to
the getter. -/
def ExampleService.getExampleOption (s : ExampleService) (h : Heap) :
    Except JsError (Option String) :=
  s.exampleOption_get h

/-- The accessor operations a caller can invoke on the service after
construction. -/
inductive AccessorOp where
  | getProp
  | getMethod
  | setProp (value : String)
deriving DecidableEq, Repr

/-- Run one accessor operation, returning the resulting service and heap.
The getter and the method read only; the setter mutates the heap.  No
operation reassigns the (readonly) `injectedConfig` field. -/
def ExampleService.runOp (s : ExampleService) (h : Heap) :
    AccessorOp → Except JsError (ExampleService × Heap)
  | .getProp => (s.exampleOption_get h).map (fun _ => (s, h))
  | .getMethod => (s.getExampleOption h).map (fun _ => (s, h))
  | .setProp v => (s.exampleOption_set h v).map (fun h2 => (s, h2))

/-- Run a sequence of accessor operations, stopping at the first raised
error. -/
def ExampleService.runOps (s : ExampleService) (h : Heap) :
    List AccessorOp → Except JsError (ExampleService × Heap)
  | [] => .ok (s, h)
  | op :: ops => (s.runOp h op).bind (fun p => p.1.runOps p.2 ops)

/-- `ExampleService` from the variant file `src/unnamed/part_000`: the same
field and the same `exampleOption` getter (the variant file ends after the
getter). -/
structure VariantExampleService where
  injectedConfig : Option Ref
deriving DecidableEq, Repr

/-- The variant file getter: `return this.injectedConfig.exampleOption`,
translated from `src/unnamed/part_000` lines 137-139. -/
def VariantExampleService.exampleOption_get (s : VariantExampleService)
    (h : Heap) : Except JsError (Option String) :=
  match s.injectedConfig with
  | none => .error (.typeErrorRead "exampleOption")
  | some r => .ok ((h r).getField "exampleOption")

/-- A concrete heap for witnesses: every reference holds
`{exampleOption: "custom-value"}`. -/
def demoHeap : Heap :=
  fun _ => ⟨[("exampleOption", "custom-value")]⟩

/-- A concrete heap of empty objects `{}` for witnesses. -/
def emptyHeap : Heap :=
  fun _ => ⟨[]⟩

/-! ### Association-list lemmas -/

theorem getFieldList_putFieldList_same (l : List (String × String))
    (k v : String) : getFieldList (putFieldList l k v) k = some v := by
  induction l with
  | nil => simp [putFieldList, getFieldList]
  | cons p ps ih =>
    by_cases hp : p.1 = k
    · simp [putFieldList, getFieldList, hp]
    · simp only [putFieldList, beq_iff_eq, hp, if_false]
      simp [getFieldList, hp, ih]

theorem getFieldList_putFieldList_other (l : List (String × String))
    (k k2 v : String) (hk : k2 ≠ k) :
    getFieldList (putFieldList l k v) k2 = getFieldList l k2 := by
  induction l with
  | nil => simp [putFieldList, getFieldList, hk, Ne.symm hk]
  | cons p ps ih =>
    by_cases hp : p.1 = k
    · simp [putFieldList, getFieldList, hp, hk, Ne.symm hk]
    · simp only [putFieldList, beq_iff_eq, hp, if_false]
      by_cases hp2 : p.1 = k2
      · simp [getFieldList, hp2]
      · simp [getFieldList, hp2, ih]

theorem runOp_preserves_service (s : ExampleService) (h : Heap)
    (op : AccessorOp) (p : ExampleService × Heap)
    (hrun : s.runOp h op = .ok p) : p.1 = s := by
  cases op with
  | getProp =>
    cases hc : s.injectedConfig
    all_goals
      simp [ExampleService.runOp, ExampleService.exampleOption_get, hc,
        Except.map] at hrun
    simp [← hrun]
  | getMethod =>
    cases hc : s.injectedConfig
    all_goals
      simp [ExampleService.runOp, ExampleService.getExampleOption,
        ExampleService.exampleOption_get, hc, Except.map] at hrun
    simp [← hrun]
  | setProp v =>
    cases hc : s.injectedConfig
    all_goals
      simp [ExampleService.runOp, ExampleService.exampleOption_set, hc,
        Except.map] at hrun
    simp [← hrun]

/-! ### Claims -/

/-- Claim C1: for every configuration object whose `exampleOption` field
holds value `v`, constructing the service with it and reading the
`exampleOption` getter returns exactly `v`, with no transformation. -/
theorem c1_read_passthrough (h : Heap) (r : Ref) (v : String)
    (hv : (h r).getField "exampleOption" = some v) :
    (ExampleService.construct (some r)).exampleOption_get h =
      .ok (some v) := by
  simp [ExampleService.construct, ExampleService.exampleOption_get, hv]

theorem c1_read_passthrough_witness :
    (demoHeap 0).getField "exampleOption" = some "custom-value" ∧
    (ExampleService.construct (some 0)).exampleOption_get demoHeap =
      .ok (some "custom-value") :=
  ⟨rfl, c1_read_passthrough demoHeap 0 "custom-value" rfl⟩

/-- Claim C2: constructing the service over a present configuration, then
writing `v2` through the `exampleOption` setter, makes every subsequent
read — both the getter and `getExampleOption()` — return exactly `v2`:
the write goes straight to the held object with no caching layer. -/
theorem c2_read_after_write (h : Heap) (r : Ref) (v2 : String) :
    ∃ h2, (ExampleService.construct (some r)).exampleOption_set h v2 =
        .ok h2 ∧
      (ExampleService.construct (some r)).exampleOption_get h2 =
        .ok (some v2) ∧
      (ExampleService.construct (some r)).getExampleOption h2 =
        .ok (some v2) := by
  refine ⟨Heap.update h r ((h r).setField "exampleOption" v2), rfl, ?_, ?_⟩ <;>
    simp [ExampleService.construct, ExampleService.exampleOption_get,
      ExampleService.getExampleOption, Heap.update, ConfigObject.getField,
      ConfigObject.setField, getFieldList_putFieldList_same]

/-- Claim C3: `getExampleOption()` returns the same result as the
`exampleOption` getter in every state of the service, held configuration
included — the method is a pure delegate, so failures coincide too. -/
theorem c3_accessor_equivalence (s : ExampleService) (h : Heap) :
    s.getExampleOption h = s.exampleOption_get h := rfl

/-- Claim C4: with an absent (null/undefined) configuration, every
accessor invocation — getter, setter, or `getExampleOption()` — raises the
null/undefined-access `TypeError` on `exampleOption`, every time, and the
error is surfaced to the caller untranslated. -/
theorem c4_absent_config_errors (h : Heap) (op : AccessorOp) :
    ∃ e, (ExampleService.construct none).runOp h op = .error e ∧
      e.isNullAccessOn "exampleOption" = true := by
  cases op <;> exact ⟨_, rfl, rfl⟩

/-- Claim C5: two service instances independently constructed over the
same configuration reference share mutations: a write through the first
instance is observed by the second instance's read accessor. -/
theorem c5_shared_mutation (h : Heap) (r : Ref) (v : String)
    (s2 : ExampleService) (hs2 : s2.injectedConfig = some r) :
    ∃ h2, (ExampleService.construct (some r)).exampleOption_set h v =
        .ok h2 ∧
      s2.exampleOption_get h2 = .ok (some v) := by
  refine ⟨Heap.update h r ((h r).setField "exampleOption" v), rfl, ?_⟩
  simp [ExampleService.exampleOption_get, hs2, Heap.update,
    ConfigObject.getField, ConfigObject.setField,
    getFieldList_putFieldList_same]

theorem c5_shared_mutation_witness :
    (ExampleService.construct (some 0)).injectedConfig = some 0 ∧
    ∃ h2, (ExampleService.construct (some 0)).exampleOption_set emptyHeap
        "new-value" = .ok h2 ∧
      (ExampleService.construct (some 0)).exampleOption_get h2 =
        .ok (some "new-value") :=
  ⟨rfl, c5_shared_mutation emptyHeap 0 "new-value"
    (ExampleService.construct (some 0)) rfl⟩

/-- Claim C6: constructing the service with a present configuration object
that lacks the `exampleOption` key, then reading the getter, returns the
absent/undefined marker and does not raise an error. -/
theorem c6_missing_key_yields_undefined (h : Heap) (r : Ref)
    (hk : (h r).getField "exampleOption" = none) :
    (ExampleService.construct (some r)).exampleOption_get h = .ok none := by
  simp [ExampleService.construct, ExampleService.exampleOption_get, hk]

theorem c6_missing_key_yields_undefined_witness :
    (emptyHeap 0).getField "exampleOption" = none ∧
    (ExampleService.construct (some 0)).exampleOption_get emptyHeap =
      .ok none :=
  ⟨rfl, c6_missing_key_yields_undefined emptyHeap 0 rfl⟩

/-- Claim C7: the configuration reference held by the service is fixed at
construction: across every successfully completed sequence of accessor
operations, the held reference (or its absence) never changes; only the
heap — the field values of the referenced object — may change. -/
theorem c7_reference_fixed_by_ops (ops : List AccessorOp)
    (s : ExampleService) (h : Heap) (s2 : ExampleService) (h2 : Heap)
    (hrun : s.runOps h ops = .ok (s2, h2)) :
    s2.injectedConfig = s.injectedConfig := by
  induction ops generalizing s h with
  | nil =>
    simp [ExampleService.runOps] at hrun
    simp [hrun.1]
  | cons op ops ih =>
    simp only [ExampleService.runOps] at hrun
    cases hstep : s.runOp h op with
    | error e => simp [hstep, Except.bind] at hrun
    | ok p =>
      have hsvc := runOp_preserves_service s h op p hstep
      rw [hstep] at hrun
      simp only [Except.bind] at hrun
      rw [ih p.1 p.2 hrun, hsvc]

theorem c7_reference_fixed_by_ops_witness :
    (ExampleService.construct (some 0)).runOps demoHeap
        [AccessorOp.getProp, AccessorOp.setProp "new-value",
          AccessorOp.getMethod] =
      .ok (ExampleService.construct (some 0),
        Heap.update demoHeap 0
          ((demoHeap 0).setField "exampleOption" "new-value")) ∧
    (ExampleService.construct (some 0)).injectedConfig =
      (ExampleService.construct (some 0)).injectedConfig :=
  ⟨rfl, c7_reference_fixed_by_ops
    [AccessorOp.getProp, AccessorOp.setProp "new-value",
      AccessorOp.getMethod]
    (ExampleService.construct (some 0)) demoHeap
    (ExampleService.construct (some 0))
    (Heap.update demoHeap 0
      ((demoHeap 0).setField "exampleOption" "new-value")) rfl⟩

/-- Claim C8: the read accessors — the `exampleOption` getter and
`getExampleOption()` — have no side effects: whenever they succeed, the
service state and the heap (so the held configuration object) are left
unchanged. -/
theorem c8_read_accessors_no_side_effects (s : ExampleService) (h : Heap)
    (p q : ExampleService × Heap)
    (hget : s.runOp h AccessorOp.getProp = .ok p)
    (hmeth : s.runOp h AccessorOp.getMethod = .ok q) :
    p = (s, h) ∧ q = (s, h) := by
  cases hc : s.injectedConfig
  all_goals
    simp [ExampleService.runOp, ExampleService.exampleOption_get,
      ExampleService.getExampleOption, hc, Except.map] at hget hmeth
  simp [← hget, ← hmeth]

theorem c8_read_accessors_no_side_effects_witness :
    (ExampleService.construct (some 0)).runOp demoHeap AccessorOp.getProp =
        .ok (ExampleService.construct (some 0), demoHeap) ∧
    (ExampleService.construct (some 0)).runOp demoHeap
        AccessorOp.getMethod =
      .ok (ExampleService.construct (some 0), demoHeap) ∧
    (ExampleService.construct (some 0), demoHeap) =
        (ExampleService.construct (some 0), demoHeap) ∧
      (ExampleService.construct (some 0), demoHeap) =
        (ExampleService.construct (some 0), demoHeap) :=
  ⟨rfl, rfl, c8_read_accessors_no_side_effects
    (ExampleService.construct (some 0)) demoHeap
    (ExampleService.construct (some 0), demoHeap)
    (ExampleService.construct (some 0), demoHeap) rfl rfl⟩

/-- Claim C9: the setter changes only the `exampleOption` key of the held
configuration object: every other object on the heap and every other key
of the held object are unchanged by the write. -/
theorem c9_setter_frame (h : Heap) (r : Ref) (v : String) (h2 : Heap)
    (hset : (ExampleService.construct (some r)).exampleOption_set h v =
      .ok h2) :
    (∀ r2, r2 ≠ r → h2 r2 = h r2) ∧
    (∀ k, k ≠ "exampleOption" → (h2 r).getField k = (h r).getField k) := by
  have hh2 : h2 = Heap.update h r ((h r).setField "exampleOption" v) := by
    simpa [ExampleService.construct, ExampleService.exampleOption_set]
      using hset.symm
  subst hh2
  constructor
  · intro r2 hr2
    simp [Heap.update, hr2]
  · intro k hkey
    simp [Heap.update, ConfigObject.getField, ConfigObject.setField,
      getFieldList_putFieldList_other _ _ _ _ hkey]

theorem c9_setter_frame_witness :
    (Heap.update demoHeap 0
        ((demoHeap 0).setField "exampleOption" "new-value")) 1 =
      demoHeap 1 ∧
    ((Heap.update demoHeap 0
        ((demoHeap 0).setField "exampleOption" "new-value")) 0).getField
        "otherKey" =
      (demoHeap 0).getField "otherKey" := by
  have hmain := c9_setter_frame demoHeap 0 "new-value"
    (Heap.update demoHeap 0
      ((demoHeap 0).setField "exampleOption" "new-value")) rfl
  exact ⟨hmain.1 1 (by decide), hmain.2 "otherKey" (by decide)⟩

/-- Claim C10: the `exampleOption` getter of the service in the variant
source file is extensionally equal to the getter of the full service: for
every held configuration (present or absent) and every heap, both return
the same result, failures included. -/
theorem c10_variant_getter_equivalent (cfg : Option Ref) (h : Heap) :
    (VariantExampleService.mk cfg).exampleOption_get h =
      (ExampleService.construct cfg).exampleOption_get h := by
  cases cfg <;> rfl

end CompodocIssueCheck
